import Mathlib

/-!
Shallow embedding of the drf_chunked_upload package: the chunked-upload
session protocol implemented in `models.py` (AbstractChunkedUpload) and
`views.py` (ChunkedUploadView), with configuration values from
`settings.py`.

Modelling conventions:
- Machine times are `Int` (seconds); `timezone.now()` becomes an explicit
  `now : Int` parameter, and the expiration window `EXPIRATION_DELTA`
  becomes `Config.expirationDelta`.
- Blob contents are `List Nat` (byte lists); the storage backend is folded
  into the session record (`fileContent` is what the blob at `fileName`
  holds), since `append_chunk` rewrites the whole blob and `completed`
  renames it; this matches the observable behaviour of the code.
- The database is a `List UploadSession`; `save()` persists by replacing
  the row with the same primary key, `serializer.save(...)` appends a new
  row.  View functions return the response together with the database
  after the request, so that "session state is unchanged" is a provable
  statement and not a modelling artifact.
- The md5/`hashlib` digest is replaced by an executable stand-in
  `checksumOf`; all protocol logic only compares digests for equality.
- Per-user queryset filtering (`USER_RESTRICTED`) and the `print` call in
  `_put_chunk` are elided: no claim concerns ownership or logging.
-/

namespace DRFChunkedUpload

/-- Status constant `AbstractChunkedUpload.UPLOADING = 1` (models.py). -/
def UPLOADING : Nat := 1

/-- Status constant `AbstractChunkedUpload.COMPLETE = 2` (models.py). -/
def COMPLETE : Nat := 2

/-- Configuration surface from settings.py that the modelled code reads:
`EXPIRATION_DELTA` (default 1 day), `MAX_BYTES` (default None),
`CHECKSUM_TYPE` (default "md5"), and the view class attribute
`do_checksum_check` (default True in views.py). -/
structure Config where
  expirationDelta : Int := 86400
  maxBytes : Option Int := none
  checksumType : String := "md5"
  doChecksumCheck : Bool := true
deriving Repr, DecidableEq

/-- An uploaded chunk: the Django `UploadedFile` in `request.data[field_name]`.
`hasSize` models `hasattr(chunk, "size")` (always true for Django uploads,
but `append_chunk` branches on it). -/
structure Chunk where
  content : List Nat
  hasSize : Bool := true
deriving Repr, DecidableEq

/-- The `size` attribute of an uploaded file: its byte length. -/
def Chunk.size (c : Chunk) : Int := c.content.length

/-- The session record of models.py (`AbstractChunkedUpload` fields), plus
the blob state: `fileName` is `self.file.name` (the storage path) and
`fileContent` the bytes stored there.  `cachedChecksum` is the in-memory
memoized `_checksum` attribute (not a database column). -/
structure UploadSession where
  sid : Nat
  filename : String
  fileName : String
  fileContent : List Nat
  offset : Int
  createdAt : Int
  status : Nat
  completedAt : Option Int
  cachedChecksum : Option Nat
deriving Repr, DecidableEq

/-- Executable stand-in for the `hashlib` digest (default md5 hexdigest).
The protocol only ever compares digests for equality. -/
def checksumOf (bs : List Nat) : Nat :=
  bs.foldl (fun h b => (h * 1000003 + b + 1) % (2 ^ 128)) 0

/-- Python `str.rfind`: index of the last occurrence of `c`, or -1. -/
def lastIndexOf (cs : List Char) (c : Char) : Int :=
  match cs.reverse.findIdx? (fun x => x == c) with
  | none => -1
  | some i => (cs.length : Int) - 1 - (i : Int)

/-- Model of `os.path.splitext` (posix): split at the last dot of the final
path component, except that leading dots of that component never start an
extension. -/
def splitext (p : String) : String × String :=
  let cs := p.toList
  let sepIndex := lastIndexOf cs '/'
  let dotIndex := lastIndexOf cs '.'
  if sepIndex < dotIndex then
    let mid := (cs.drop (sepIndex + 1).toNat).take (dotIndex - (sepIndex + 1)).toNat
    if mid.any (fun x => x ≠ '.') then
      (String.mk (cs.take dotIndex.toNat), String.mk (cs.drop dotIndex.toNat))
    else (p, "")
  else (p, "")

/-- Digit string to number, as Python `int()` on a `\d+` regex group. -/
def digitsToNat (ds : List Char) : Nat :=
  ds.foldl (fun n d => n * 10 + (d.toNat - 48)) 0

/-- Model of matching `content_range_pattern`
`^bytes (?P<start>\d+)-(?P<end>\d+)/(?P<total>\d+)$` against the
Content-Range header and extracting the three integer groups (views.py). -/
def parseContentRange (s : String) : Option (Nat × Nat × Nat) :=
  match s.toList with
  | 'b' :: 'y' :: 't' :: 'e' :: 's' :: ' ' :: rest =>
    let d1 := rest.takeWhile Char.isDigit
    let r1 := rest.dropWhile Char.isDigit
    match r1 with
    | '-' :: r2 =>
      let d2 := r2.takeWhile Char.isDigit
      let r3 := r2.dropWhile Char.isDigit
      match r3 with
      | '/' :: r4 =>
        let d3 := r4.takeWhile Char.isDigit
        let r5 := r4.dropWhile Char.isDigit
        if d1 ≠ [] ∧ d2 ≠ [] ∧ d3 ≠ [] ∧ r5 = [] then
          some (digitsToNat d1, digitsToNat d2, digitsToNat d3)
        else none
      | _ => none
    | _ => none
  | _ => none

/-- Modelled from the spec: `exceptions.py` (class `ChunkedUploadError`) is
not among the sources.  Per the spec every client-facing error carries an
HTTP status code and a human-readable detail, and `OffsetMismatch`
additionally carries the authoritative current offset; the call sites in
views.py construct errors with exactly `status=`, `detail=` and (for the
offset mismatch) `offset=` arguments. -/
structure UploadError where
  status : Nat
  detail : String
  offset : Option Int := none
deriving Repr, DecidableEq

/-- Outcome of a PUT or POST request: a structured error response, or
200 OK with the (serialized) session. -/
inductive HttpOutcome where
  | err : UploadError → HttpOutcome
  | ok : UploadSession → HttpOutcome
deriving Repr, DecidableEq

/-- Outcome of a GET request: retrieve one session, list all, or 404. -/
inductive GetOutcome where
  | one : UploadSession → GetOutcome
  | many : List UploadSession → GetOutcome
  | notFound : GetOutcome
deriving Repr, DecidableEq

/-- Property `expires_at = created_at + EXPIRATION_DELTA` (models.py). -/
def expiresAt (cfg : Config) (s : UploadSession) : Int :=
  s.createdAt + cfg.expirationDelta

/-- Property `expired = (expires_at <= timezone.now())` (models.py). -/
def expired (cfg : Config) (s : UploadSession) (now : Int) : Bool :=
  decide (expiresAt cfg s ≤ now)

/-- A model instance freshly loaded from the database: the memoized
`_checksum` attribute does not exist on a fresh instance, so
`getattr(self, "_checksum", None)` is None. -/
def loadInstance (s : UploadSession) : UploadSession :=
  { s with cachedChecksum := none }

/-- Property `checksum` (models.py): return the memoized `_checksum` if
set, otherwise stream the stored blob through the digest and memoize the
result on the instance. -/
def checksumProp (s : UploadSession) : Nat × UploadSession :=
  match s.cachedChecksum with
  | some c => (c, s)
  | none =>
    let c := checksumOf s.fileContent
    (c, { s with cachedChecksum := some c })

/-- Method `append_chunk(chunk, chunk_size=None, save=True)` (models.py):
rewrite the blob as old-content ++ chunk-content (read the current blob,
append the chunk, write the whole thing back), then advance `offset` by
`chunk_size` if given, else by `chunk.size` if the chunk has a size, else
set `offset` to the new blob length (`self.file.size`); clear the cached
checksum; call `save()` when `save` is true.  The returned Bool records
whether `save()` was called. -/
def append_chunk (s : UploadSession) (chunk : Chunk) (chunk_size : Option Int)
    (save : Bool) : UploadSession × Bool :=
  let newContent := s.fileContent ++ chunk.content
  let newOffset : Int :=
    match chunk_size with
    | some cs => s.offset + cs
    | none =>
      if chunk.hasSize then s.offset + chunk.size
      else (newContent.length : Int)
  ({ s with fileContent := newContent, offset := newOffset, cachedChecksum := none },
   save)

/-- Method `completed(self, completed_at=timezone.now())` (models.py):
take the extension of the original `filename`, rename the blob (both the
model field `file.name` and the stored object) to its stem plus that
extension, set status COMPLETE, set `completed_at`, and save.

Python evaluates the default argument `timezone.now()` once, when the
class body is executed at module import; a caller that omits the argument
therefore passes the module-import timestamp, not the call-time clock. -/
def completed (s : UploadSession) (completed_at : Int) : UploadSession :=
  let filename_ext := (splitext s.filename).2
  { s with
      fileName := (splitext s.fileName).1 ++ filename_ext,
      status := COMPLETE,
      completedAt := some completed_at }

/-- Helper `is_valid_chunked_upload` (views.py): 410 if the upload has
expired, else 400 if it is already marked complete, else no error.  The
expiration check comes first. -/
def is_valid_chunked_upload (cfg : Config) (s : UploadSession) (now : Int) :
    Option UploadError :=
  if expired cfg s now then some ⟨410, "Upload has expired", none⟩
  else if s.status = COMPLETE then
    some ⟨400, "Upload has already been marked as \"complete\"", none⟩
  else none

/-- The parts of an incoming request that `_put_chunk` and `_post` read:
whether `request.data` has the configured file field (`hasChunk`), the
uploaded chunk, the raw Content-Range header (absent header = ""), the
client-supplied filename, whether the create-path serializer validates,
and `request.data.get(CHECKSUM_TYPE)` (none = absent/empty). -/
structure UploadRequest where
  hasChunk : Bool
  chunk : Chunk
  contentRangeHeader : String
  filename : String
  serializerValid : Bool := true
  checksum : Option Nat := none
deriving Repr, DecidableEq

/-- Database lookup by primary key (`get_object_or_404` / queryset get). -/
def dbGet (db : List UploadSession) (pk : Nat) : Option UploadSession :=
  db.find? (fun s => s.sid == pk)

/-- Persisting `save()` of an existing row: replace the row with this pk. -/
def dbSet (db : List UploadSession) (s : UploadSession) : List UploadSession :=
  db.map (fun t => if t.sid == s.sid then s else t)

/-- The new session created by `serializer.save(user=user, offset=chunk.size)`
(views.py create path): fresh UUID pk, the submitted file stored at the
`upload_to` path `<id> + INCOMPLETE_EXT` (date directories elided), offset
initialised to the chunk size, default status UPLOADING, `created_at` set
by `auto_now_add`. -/
def newSession (now : Int) (freshId : Nat) (req : UploadRequest) : UploadSession :=
  { sid := freshId
    filename := req.filename
    fileName := "chunked_uploads/" ++ toString freshId ++ ".part"
    fileContent := req.chunk.content
    offset := req.chunk.size
    createdAt := now
    status := UPLOADING
    completedAt := none
    cachedChecksum := none }

/-- Second half of `_put_chunk` (views.py), after the range has been
extracted and the max-bytes check passed: chunk-size consistency check,
then either the existing-upload path (load, validity check, offset check,
append) or the create path (serializer validation, create).  The Bool in
the result is true for a newly created session, false for an append. -/
def putChunkStage2 (cfg : Config) (db : List UploadSession) (now : Int)
    (freshId : Nat) (req : UploadRequest) (uploadId : Option Nat)
    (start chunk_size : Int) : Except UploadError (UploadSession × Bool) :=
  if req.chunk.size ≠ chunk_size then
    .error ⟨400, "File size doesn\x27t match headers: file size is " ++
      toString req.chunk.size ++ " but " ++ toString chunk_size ++ " reported", none⟩
  else
    match uploadId with
    | some uid =>
      match dbGet db uid with
      | none => .error ⟨404, "Not found", none⟩
      | some row =>
        let cu := loadInstance row
        match is_valid_chunked_upload cfg cu now with
        | some e => .error e
        | none =>
          if cu.offset ≠ start then
            .error ⟨400, "Offsets do not match", some cu.offset⟩
          else
            .ok ((append_chunk cu req.chunk (some chunk_size) true).1, false)
    | none =>
      if req.serializerValid = false then
        .error ⟨400, "invalid upload data", none⟩
      else
        .ok (newSession now freshId req, true)

/-- Method `_put_chunk` (views.py): reject if no chunk file was submitted;
synthesize the whole-file range or parse the Content-Range header (400 on
malformed header); compute `chunk_size = end - start + 1`; reject 400 if
`total` exceeds the configured max; then `putChunkStage2`.  `get_object_or_404`
is modelled as a 404 error outcome. -/
def putChunkCore (cfg : Config) (db : List UploadSession) (now : Int)
    (freshId : Nat) (req : UploadRequest) (uploadId : Option Nat)
    (whole : Bool) : Except UploadError (UploadSession × Bool) :=
  if req.hasChunk = false then
    .error ⟨400, "No chunk file was submitted", none⟩
  else
    let parsed : Option (Int × Int × Int) :=
      if whole then some ((0 : Int), req.chunk.size - 1, req.chunk.size)
      else
        match parseContentRange req.contentRangeHeader with
        | none => none
        | some (a, b, c) => some ((a : Int), (b : Int), (c : Int))
    match parsed with
    | none => .error ⟨400, "Error in request headers", none⟩
    | some (start, stop, total) =>
      let chunk_size : Int := stop - start + 1
      match cfg.maxBytes with
      | some mb =>
        if total > mb then
          .error ⟨400, "Size of file exceeds the limit (" ++ toString mb ++
            " bytes)", none⟩
        else putChunkStage2 cfg db now freshId req uploadId start chunk_size
      | none => putChunkStage2 cfg db now freshId req uploadId start chunk_size

/-- Handler `put` / `_put` (views.py): run `_put_chunk` with the URL pk; a
raised ChunkedUploadError becomes an error response and leaves the
database untouched; on success the session is persisted (append saved the
existing row, create inserted a new one) and returned with 200. -/
def putView (cfg : Config) (db : List UploadSession) (now : Int) (freshId : Nat)
    (req : UploadRequest) (pk : Option Nat) : HttpOutcome × List UploadSession :=
  match putChunkCore cfg db now freshId req pk false with
  | .error e => (.err e, db)
  | .ok (s, true) => (.ok s, db ++ [s])
  | .ok (s, false) => (.ok s, dbSet db s)

/-- Tail of `_post` (views.py) once `upload_id` is known (`preloaded` is
the in-hand instance when the whole-file path just created it): the
required-field check (`upload_id` is always present here, so with
checksum checking enabled it reduces to the checksum being present), the
404 lookup, `is_valid_chunked_upload`, `checksum_check`, then
`completed()` — which, because the call passes no argument, stamps the
module-import timestamp — and `on_completion` (a placeholder with no
effect). -/
def postFinalize (cfg : Config) (db : List UploadSession) (now importTime : Int)
    (req : UploadRequest) (preloaded : Option UploadSession) (uid : Nat) :
    HttpOutcome × List UploadSession :=
  if cfg.doChecksumCheck ∧ req.checksum = none then
    (.err ⟨400, "Both \x27id\x27 and \x27" ++ cfg.checksumType ++
      "\x27 are required", none⟩, db)
  else
    match (match preloaded with
           | some cu => some cu
           | none => (dbGet db uid).map loadInstance) with
    | none => (.err ⟨404, "Not found", none⟩, db)
    | some cu =>
      match is_valid_chunked_upload cfg cu now with
      | some e => (.err e, db)
      | none =>
        let checked : Except UploadError UploadSession :=
          if cfg.doChecksumCheck then
            let pr := checksumProp cu
            if some pr.1 ≠ req.checksum then
              .error ⟨400, "checksum does not match", none⟩
            else .ok pr.2
          else .ok cu
        match checked with
        | .error e => (.err e, db)
        | .ok cu2 =>
          let fin := completed cu2 importTime
          (.ok fin, dbSet db fin)

/-- Handler `post` / `_post` (views.py): with a URL pk this finalizes that
session; without one the body is first uploaded as a whole-file single
chunk (persisting the new session even if a later step fails), then that
new session is finalized.  `importTime` is the module-import timestamp
that the argument-less `completed()` call stamps. -/
def postView (cfg : Config) (db : List UploadSession) (now importTime : Int)
    (freshId : Nat) (req : UploadRequest) (pk : Option Nat) :
    HttpOutcome × List UploadSession :=
  match pk with
  | some uid => postFinalize cfg db now importTime req none uid
  | none =>
    match putChunkCore cfg db now freshId req none true with
    | .error e => (.err e, db)
    | .ok (s, isNew) =>
      let db1 := if isNew then db ++ [s] else dbSet db s
      postFinalize cfg db1 now importTime req (some s) s.sid

/-- Handler `get` / `_get` (views.py): with a pk, retrieve (404 when
absent); without, list.  No expiration or status check is performed. -/
def getView (db : List UploadSession) (pk : Option Nat) : GetOutcome :=
  match pk with
  | some uid =>
    match dbGet db uid with
    | some row => .one row
    | none => .notFound
  | none => .many db

/-- The max-bytes precondition as the code computes it: true when no limit
is configured or the declared total is within the limit. -/
def withinMax (cfg : Config) (total : Int) : Bool :=
  match cfg.maxBytes with
  | some mb => decide (total ≤ mb)
  | none => true

/-- Shared reduction lemma: a PUT request that carries a chunk, whose
Content-Range header parses, and whose declared total is within the
configured maximum reaches the second stage of `_put_chunk` with
`start` and `chunk_size = end - start + 1` as extracted by the regex. -/
theorem putChunkCore_shape (cfg : Config) (db : List UploadSession) (now : Int)
    (fid : Nat) (req : UploadRequest) (uploadId : Option Nat) (st en tot : Nat)
    (hchunk : req.hasChunk = true)
    (hparse : parseContentRange req.contentRangeHeader = some (st, en, tot))
    (hmaxok : withinMax cfg (tot : Int) = true) :
    putChunkCore cfg db now fid req uploadId false =
      putChunkStage2 cfg db now fid req uploadId (st : Int)
        ((en : Int) - (st : Int) + 1) := by
  unfold putChunkCore
  cases hmb : cfg.maxBytes with
  | none => simp [hchunk, hparse, hmb]
  | some mb =>
    have hle : ¬((tot : Int) > mb) := by
      simp only [withinMax, hmb, decide_eq_true_eq] at hmaxok
      exact not_lt.mpr hmaxok
    simp [hchunk, hparse, hmb, hle]

/-! Concrete sample data used by witnesses and counterexamples. -/

/-- Default configuration: 1-day expiration, no max, md5, checksum check on. -/
def cfgDefault : Config := {}

/-- Configuration with a 100-byte maximum upload size. -/
def cfgMax100 : Config := { maxBytes := some 100 }

/-- A five-byte chunk. -/
def chunk5 : Chunk := { content := [10, 20, 30, 40, 50] }

/-- A request submitting `chunk5` declared as `bytes 5-9/100`. -/
def req59 : UploadRequest :=
  { hasChunk := true, chunk := chunk5, contentRangeHeader := "bytes 5-9/100",
    filename := "data.bin" }

/-- A request whose declared total (1000000) exceeds a 100-byte limit. -/
def reqBig : UploadRequest :=
  { hasChunk := true, chunk := { content := [1] },
    contentRangeHeader := "bytes 0-0/1000000", filename := "data.bin" }

/-- An in-progress session: three bytes stored, offset 3, created at time 0,
with a (stale) memoized checksum to make cache invalidation observable. -/
def sUp : UploadSession :=
  { sid := 1, filename := "data.bin", fileName := "chunked_uploads/1.part",
    fileContent := [1, 2, 3], offset := 3, createdAt := 0, status := UPLOADING,
    completedAt := none, cachedChecksum := some 99 }

/-- C2: for a session in state UPLOADING, a successful `append_chunk` with a
declared size increments `offset` by exactly that size (falling back to the
chunk's own size, or to the new stored blob length, when no size is
declared), clears the cached checksum, and saves the record. -/
theorem C2_append_chunk_effects (s : UploadSession) (c : Chunk) (n : Int)
    (_hstat : s.status = UPLOADING) :
    ((append_chunk s c (some n) true).1.offset = s.offset + n
      ∧ (append_chunk s c (some n) true).1.cachedChecksum = none
      ∧ (append_chunk s c (some n) true).2 = true)
    ∧ (c.hasSize = true → (append_chunk s c none true).1.offset = s.offset + c.size)
    ∧ (c.hasSize = false →
        (append_chunk s c none true).1.offset =
          ((s.fileContent ++ c.content).length : Int)) := by
  refine ⟨⟨rfl, rfl, rfl⟩, ?_, ?_⟩ <;> intro h <;> simp [append_chunk, h]

/-- C2 witness: the effects evaluated on a concrete uploading session. -/
theorem C2_append_chunk_effects_witness :
    ((append_chunk sUp chunk5 (some 5) true).1.offset = sUp.offset + 5
      ∧ (append_chunk sUp chunk5 (some 5) true).1.cachedChecksum = none
      ∧ (append_chunk sUp chunk5 (some 5) true).2 = true)
    ∧ (chunk5.hasSize = true →
        (append_chunk sUp chunk5 none true).1.offset = sUp.offset + chunk5.size)
    ∧ (chunk5.hasSize = false →
        (append_chunk sUp chunk5 none true).1.offset =
          ((sUp.fileContent ++ chunk5.content).length : Int)) :=
  C2_append_chunk_effects sUp chunk5 5 rfl

/-- C7: a PUT chunk whose declared total exceeds the configured maximum is
rejected with 400 and the size-limit message, before any session lookup,
blob write or record mutation, for any pk (existing or not). -/
theorem C7_size_limit_rejected (cfg : Config) (db : List UploadSession)
    (now : Int) (fid : Nat) (req : UploadRequest) (pk : Option Nat) (mb : Int)
    (st en tot : Nat)
    (hmax : cfg.maxBytes = some mb)
    (hchunk : req.hasChunk = true)
    (hparse : parseContentRange req.contentRangeHeader = some (st, en, tot))
    (hover : (tot : Int) > mb) :
    putView cfg db now fid req pk =
      (.err ⟨400, "Size of file exceeds the limit (" ++ toString mb ++
        " bytes)", none⟩, db) := by
  unfold putView putChunkCore
  simp [hchunk, hparse, hmax, hover]

/-- C7 witness: total 1000000 against a configured max of 100, on an empty
database (the session does not exist), is rejected with the size limit
error and the database is untouched. -/
theorem C7_size_limit_rejected_witness :
    putView cfgMax100 [] 0 1 reqBig (some 77) =
      (.err ⟨400, "Size of file exceeds the limit (" ++ toString (100 : Int) ++
        " bytes)", none⟩, []) :=
  C7_size_limit_rejected cfgMax100 [] 0 1 reqBig (some 77) 100 0 0 1000000
    (by decide) (by decide) (by decide) (by decide)

/-- C8: a POST complete naming an existing-or-not session id, with checksum
verification enabled and no checksum value supplied, is rejected with 400
and a message naming the required fields (the session id field and the
configured checksum field), before any lookup or mutation. -/
theorem C8_missing_checksum_rejected (cfg : Config) (db : List UploadSession)
    (now importTime : Int) (fid uid : Nat) (req : UploadRequest)
    (hcheck : cfg.doChecksumCheck = true)
    (hmissing : req.checksum = none) :
    postView cfg db now importTime fid req (some uid) =
      (.err ⟨400, "Both \x27id\x27 and \x27" ++ cfg.checksumType ++
        "\x27 are required", none⟩, db) := by
  simp [postView, postFinalize, hcheck, hmissing]

/-- C8 witness: finalizing without the md5 field is rejected with the
message naming both required fields. -/
theorem C8_missing_checksum_rejected_witness :
    postView cfgDefault [sUp] 10 0 2 req59 (some 1) =
      (.err ⟨400, "Both \x27id\x27 and \x27" ++ cfgDefault.checksumType ++
        "\x27 are required", none⟩, [sUp]) :=
  C8_missing_checksum_rejected cfgDefault [sUp] 10 0 2 1 req59 rfl rfl

/-- C9: a PUT chunk without a session id creates a new session whose offset
is the submitted chunk's byte size, with no check of the declared start
against 0: the start value is unconstrained. -/
theorem C9_create_ignores_start (cfg : Config) (db : List UploadSession)
    (now : Int) (fid : Nat) (req : UploadRequest) (st en tot : Nat)
    (hchunk : req.hasChunk = true)
    (hparse : parseContentRange req.contentRangeHeader = some (st, en, tot))
    (hmaxok : withinMax cfg (tot : Int) = true)
    (hsize : req.chunk.size = (en : Int) - (st : Int) + 1)
    (hser : req.serializerValid = true) :
    putView cfg db now fid req none =
      (.ok (newSession now fid req), db ++ [newSession now fid req])
    ∧ (newSession now fid req).offset = req.chunk.size
    ∧ (newSession now fid req).status = UPLOADING := by
  refine ⟨?_, rfl, rfl⟩
  unfold putView
  rw [putChunkCore_shape cfg db now fid req none st en tot hchunk hparse hmaxok]
  simp [putChunkStage2, hsize, hser]

/-- C9 witness: a first chunk declared `bytes 5-9/100` (nonzero start)
creates a session with offset 5, which differs from the declared end
position plus one (10). -/
theorem C9_create_ignores_start_witness :
    (putView cfgDefault [] 7 42 req59 none =
      (.ok (newSession 7 42 req59), [] ++ [newSession 7 42 req59])
     ∧ (newSession 7 42 req59).offset = req59.chunk.size
     ∧ (newSession 7 42 req59).status = UPLOADING)
    ∧ (newSession 7 42 req59).offset = 5 ∧ ((5 : Int) ≠ 9 + 1) :=
  ⟨C9_create_ignores_start cfgDefault [] 7 42 req59 5 9 100 rfl (by decide)
      (by decide) (by decide) rfl,
   by decide, by decide⟩

/-- A freshly loaded instance has no memoized checksum. -/
theorem loadInstance_cachedChecksum (s : UploadSession) :
    (loadInstance s).cachedChecksum = none := rfl

/-- Loading an instance does not change its offset. -/
theorem loadInstance_offset (s : UploadSession) :
    (loadInstance s).offset = s.offset := rfl

/-- The five-byte mismatched-offset request with a client checksum. -/
def req59ck : UploadRequest := { req59 with checksum := some 123 }

/-- A request like `req59` but carrying a wrong checksum (0). -/
def reqBadCk : UploadRequest := { req59 with checksum := some 0 }

/-- A session already marked COMPLETE (same record as `sUp` otherwise). -/
def sDone : UploadSession :=
  { sUp with status := COMPLETE, completedAt := some 5 }

/-- C1 amended theorem: a PUT chunk against an existing, non-expired,
non-complete session, with a well-formed size-consistent range within the
configured maximum, whose start differs from the session's offset, is
rejected 400 with detail "Offsets do not match", the error carries the
session's current offset, and the database (hence the session's offset,
status and blob) is unchanged. -/
theorem C1_offset_mismatch_rejected (cfg : Config) (db : List UploadSession)
    (now : Int) (fid : Nat) (req : UploadRequest) (uid : Nat)
    (row : UploadSession) (st en tot : Nat)
    (hchunk : req.hasChunk = true)
    (hparse : parseContentRange req.contentRangeHeader = some (st, en, tot))
    (hmaxok : withinMax cfg (tot : Int) = true)
    (hsize : req.chunk.size = (en : Int) - (st : Int) + 1)
    (hget : dbGet db uid = some row)
    (hnexp : expired cfg row now = false)
    (hstat : row.status ≠ COMPLETE)
    (hoff : row.offset ≠ (st : Int)) :
    putView cfg db now fid req (some uid) =
      (.err ⟨400, "Offsets do not match", some row.offset⟩, db) := by
  have hnexp2 : expired cfg (loadInstance row) now = false := hnexp
  have hstat2 : (loadInstance row).status ≠ COMPLETE := hstat
  have hoff2 : (loadInstance row).offset ≠ (st : Int) := hoff
  unfold putView
  rw [putChunkCore_shape cfg db now fid req (some uid) st en tot hchunk hparse
    hmaxok]
  simp [putChunkStage2, hsize, hget, is_valid_chunked_upload, hnexp2, hstat2,
    hoff2, hoff, loadInstance_offset]

/-- C1 witness: offset-3 session, chunk declared at start 5: rejected with
the authoritative offset 3 in the error, database untouched. -/
theorem C1_offset_mismatch_rejected_witness :
    putView cfgDefault [sUp] 10 3 req59 (some 1) =
      (.err ⟨400, "Offsets do not match", some sUp.offset⟩, [sUp]) :=
  C1_offset_mismatch_rejected cfgDefault [sUp] 10 3 req59 1 sUp 5 9 100
    rfl (by decide) (by decide) (by decide) (by decide) (by decide) (by decide)
    (by decide)

/-- C1 counterexample: the claim as stated fails when the session is
expired: the very same mismatched-offset request (existing id, well-formed
size-consistent range, start 5 ≠ offset 3) is rejected 410 "Upload has
expired", not 400 "Offsets do not match". -/
theorem C1_counterexample :
    putView cfgDefault [sUp] 200000 9 req59 (some 1) =
      (.err ⟨410, "Upload has expired", none⟩, [sUp])
    ∧ parseContentRange req59.contentRangeHeader = some (5, 9, 100)
    ∧ req59.chunk.size = (9 : Int) - 5 + 1
    ∧ sUp.offset ≠ (5 : Int)
    ∧ (putView cfgDefault [sUp] 200000 9 req59 (some 1)).1 ≠
        .err ⟨400, "Offsets do not match", some sUp.offset⟩ := by
  decide

/-- C4 amended theorem: on a session past its expiration window, a PUT
chunk (that passes its request-shape validations) and a POST complete
(that supplies a checksum) both fail 410 "Upload has expired" with the
database unchanged; GET retrieve performs no expiration check and returns
the session record. -/
theorem C4_expired_rejected (cfg : Config) (db : List UploadSession)
    (now importTime : Int) (fid : Nat) (req : UploadRequest) (uid : Nat)
    (row : UploadSession) (st en tot ck : Nat)
    (hget : dbGet db uid = some row)
    (hexp : expired cfg row now = true)
    (hchunk : req.hasChunk = true)
    (hparse : parseContentRange req.contentRangeHeader = some (st, en, tot))
    (hmaxok : withinMax cfg (tot : Int) = true)
    (hsize : req.chunk.size = (en : Int) - (st : Int) + 1)
    (hck : req.checksum = some ck) :
    putView cfg db now fid req (some uid) =
      (.err ⟨410, "Upload has expired", none⟩, db)
    ∧ postView cfg db now importTime fid req (some uid) =
      (.err ⟨410, "Upload has expired", none⟩, db)
    ∧ getView db (some uid) = .one row := by
  have hexp2 : expired cfg (loadInstance row) now = true := hexp
  refine ⟨?_, ?_, ?_⟩
  · unfold putView
    rw [putChunkCore_shape cfg db now fid req (some uid) st en tot hchunk
      hparse hmaxok]
    simp [putChunkStage2, hsize, hget, is_valid_chunked_upload, hexp2]
  · simp [postView, postFinalize, hck, hget, is_valid_chunked_upload, hexp2]
  · simp [getView, hget]

/-- C4 witness: the three operations evaluated on a concrete expired
session. -/
theorem C4_expired_rejected_witness :
    putView cfgDefault [sUp] 200000 9 req59ck (some 1) =
      (.err ⟨410, "Upload has expired", none⟩, [sUp])
    ∧ postView cfgDefault [sUp] 200000 100 9 req59ck (some 1) =
      (.err ⟨410, "Upload has expired", none⟩, [sUp])
    ∧ getView [sUp] (some 1) = .one sUp :=
  C4_expired_rejected cfgDefault [sUp] 200000 100 9 req59ck 1 sUp 5 9 100 123
    (by decide) (by decide) rfl (by decide) (by decide) (by decide) rfl

/-- C4 counterexample: the claim as stated fails for GET retrieve: on an
expired session it returns the session record (200), it does not fail
with SessionExpired/410. -/
theorem C4_counterexample :
    expired cfgDefault sUp 200000 = true
    ∧ getView [sUp] (some 1) = .one sUp := by
  decide

/-- C5 amended theorem: a POST complete with checksum verification enabled
against a non-expired UPLOADING session, whose supplied checksum differs
from the checksum computed over the stored blob, is rejected 400
"checksum does not match" and the database is unchanged: the session is
not finalized, its status stays UPLOADING, completedAt stays as it was,
and the blob keeps its name. -/
theorem C5_checksum_mismatch_rejected (cfg : Config) (db : List UploadSession)
    (now importTime : Int) (fid uid : Nat) (req : UploadRequest)
    (row : UploadSession) (ck : Nat)
    (hcheck : cfg.doChecksumCheck = true)
    (hck : req.checksum = some ck)
    (hget : dbGet db uid = some row)
    (hnexp : expired cfg row now = false)
    (hstat : row.status = UPLOADING)
    (hbad : ck ≠ checksumOf row.fileContent) :
    postView cfg db now importTime fid req (some uid) =
      (.err ⟨400, "checksum does not match", none⟩, db) := by
  have hnexp2 : expired cfg (loadInstance row) now = false := hnexp
  have hstat2 : (loadInstance row).status = UPLOADING := hstat
  have hbad2 : checksumOf (loadInstance row).fileContent ≠ ck :=
    fun h => hbad h.symm
  simp [postView, postFinalize, hcheck, hck, hget, is_valid_chunked_upload,
    hnexp2, hstat2, UPLOADING, COMPLETE, checksumProp,
    loadInstance_cachedChecksum, hbad2]

/-- C5 witness: wrong checksum 0 against a fresh uploading session. -/
theorem C5_checksum_mismatch_rejected_witness :
    postView cfgDefault [sUp] 10 100 9 reqBadCk (some 1) =
      (.err ⟨400, "checksum does not match", none⟩, [sUp]) :=
  C5_checksum_mismatch_rejected cfgDefault [sUp] 10 100 9 1 reqBadCk sUp 0
    rfl rfl (by decide) (by decide) (by decide) (by decide)

/-- C5 counterexample: the claim as stated fails when the session is
expired: the same wrong-checksum POST is rejected 410 "Upload has
expired", not 400 with a checksum-failure detail. -/
theorem C5_counterexample :
    postView cfgDefault [sUp] 200000 100 9 reqBadCk (some 1) =
      (.err ⟨410, "Upload has expired", none⟩, [sUp])
    ∧ (0 : Nat) ≠ checksumOf sUp.fileContent
    ∧ sUp.status = UPLOADING
    ∧ (postView cfgDefault [sUp] 200000 100 9 reqBadCk (some 1)).1 ≠
        .err ⟨400, "checksum does not match", none⟩ := by
  decide

/-- C6 amended theorem: the UPLOADING → COMPLETE transition is one-way: a
chunk or a finalize against a non-expired COMPLETE session is rejected
400 "Upload has already been marked as complete" with the database
unchanged (an expired COMPLETE session is instead rejected 410, see the
counterexample), and GET returns the record unchanged, so no operation
moves a session out of COMPLETE or appends to it. -/
theorem C6_complete_is_terminal (cfg : Config) (db : List UploadSession)
    (now importTime : Int) (fid : Nat) (req : UploadRequest) (uid : Nat)
    (row : UploadSession) (st en tot ck : Nat)
    (hget : dbGet db uid = some row)
    (hstat : row.status = COMPLETE)
    (hnexp : expired cfg row now = false)
    (hchunk : req.hasChunk = true)
    (hparse : parseContentRange req.contentRangeHeader = some (st, en, tot))
    (hmaxok : withinMax cfg (tot : Int) = true)
    (hsize : req.chunk.size = (en : Int) - (st : Int) + 1)
    (hck : req.checksum = some ck) :
    putView cfg db now fid req (some uid) =
      (.err ⟨400, "Upload has already been marked as \"complete\"", none⟩, db)
    ∧ postView cfg db now importTime fid req (some uid) =
      (.err ⟨400, "Upload has already been marked as \"complete\"", none⟩, db)
    ∧ getView db (some uid) = .one row := by
  have hnexp2 : expired cfg (loadInstance row) now = false := hnexp
  have hstat2 : (loadInstance row).status = COMPLETE := hstat
  refine ⟨?_, ?_, ?_⟩
  · unfold putView
    rw [putChunkCore_shape cfg db now fid req (some uid) st en tot hchunk
      hparse hmaxok]
    simp [putChunkStage2, hsize, hget, is_valid_chunked_upload, hnexp2, hstat2]
  · simp [postView, postFinalize, hck, hget, is_valid_chunked_upload, hnexp2,
      hstat2]
  · simp [getView, hget]

/-- C6 witness: chunk, finalize and retrieve against a concrete complete
session. -/
theorem C6_complete_is_terminal_witness :
    putView cfgDefault [sDone] 10 9 req59ck (some 1) =
      (.err ⟨400, "Upload has already been marked as \"complete\"", none⟩,
       [sDone])
    ∧ postView cfgDefault [sDone] 10 100 9 req59ck (some 1) =
      (.err ⟨400, "Upload has already been marked as \"complete\"", none⟩,
       [sDone])
    ∧ getView [sDone] (some 1) = .one sDone :=
  C6_complete_is_terminal cfgDefault [sDone] 10 100 9 req59ck 1 sDone 5 9 100
    123 (by decide) (by decide) (by decide) rfl (by decide) (by decide)
    (by decide) rfl

/-- C6 counterexample: the claim as stated fails when the COMPLETE session
is also expired: a chunk against it is rejected 410 "Upload has expired",
not 400 SessionAlreadyComplete. -/
theorem C6_counterexample :
    sDone.status = COMPLETE
    ∧ putView cfgDefault [sDone] 200000 9 req59 (some 1) =
        (.err ⟨410, "Upload has expired", none⟩, [sDone])
    ∧ (putView cfgDefault [sDone] 200000 9 req59 (some 1)).1 ≠
        .err ⟨400, "Upload has already been marked as \"complete\"", none⟩ := by
  decide

/-- C10: on a session that is both COMPLETE and past its expiration
window, the expiration check runs first, so a (well-shaped) PUT chunk and
a POST complete are rejected 410 "Upload has expired" rather than 400
SessionAlreadyComplete. -/
theorem C10_expired_checked_before_complete (cfg : Config)
    (db : List UploadSession) (now importTime : Int) (fid : Nat)
    (req : UploadRequest) (uid : Nat) (row : UploadSession) (st en tot ck : Nat)
    (hget : dbGet db uid = some row)
    (_hstat : row.status = COMPLETE)
    (hexp : expired cfg row now = true)
    (hchunk : req.hasChunk = true)
    (hparse : parseContentRange req.contentRangeHeader = some (st, en, tot))
    (hmaxok : withinMax cfg (tot : Int) = true)
    (hsize : req.chunk.size = (en : Int) - (st : Int) + 1)
    (hck : req.checksum = some ck) :
    putView cfg db now fid req (some uid) =
      (.err ⟨410, "Upload has expired", none⟩, db)
    ∧ postView cfg db now importTime fid req (some uid) =
      (.err ⟨410, "Upload has expired", none⟩, db)
    ∧ (putView cfg db now fid req (some uid)).1 ≠
        .err ⟨400, "Upload has already been marked as \"complete\"", none⟩ := by
  have hexp2 : expired cfg (loadInstance row) now = true := hexp
  have hput : putView cfg db now fid req (some uid) =
      (.err ⟨410, "Upload has expired", none⟩, db) := by
    unfold putView
    rw [putChunkCore_shape cfg db now fid req (some uid) st en tot hchunk
      hparse hmaxok]
    simp [putChunkStage2, hsize, hget, is_valid_chunked_upload, hexp2]
  refine ⟨hput, ?_, ?_⟩
  · simp [postView, postFinalize, hck, hget, is_valid_chunked_upload, hexp2]
  · rw [hput]
    simp

/-- C10 witness: a concrete expired-and-complete session. -/
theorem C10_expired_checked_before_complete_witness :
    putView cfgDefault [sDone] 200000 9 req59ck (some 1) =
      (.err ⟨410, "Upload has expired", none⟩, [sDone])
    ∧ postView cfgDefault [sDone] 200000 100 9 req59ck (some 1) =
      (.err ⟨410, "Upload has expired", none⟩, [sDone])
    ∧ (putView cfgDefault [sDone] 200000 9 req59ck (some 1)).1 ≠
        .err ⟨400, "Upload has already been marked as \"complete\"", none⟩ :=
  C10_expired_checked_before_complete cfgDefault [sDone] 200000 100 9 req59ck
    1 sDone 5 9 100 123 (by decide) (by decide) (by decide) rfl (by decide)
    (by decide) (by decide) rfl

/-- An uploading session whose original filename carries a .pdf extension. -/
def sPdf : UploadSession :=
  { sid := 7, filename := "report.pdf", fileName := "chunked_uploads/7.part",
    fileContent := [1, 2, 3], offset := 3, createdAt := 0, status := UPLOADING,
    completedAt := none, cachedChecksum := none }

/-- The finalize request for `sPdf` with the correct checksum. -/
def reqFin : UploadRequest :=
  { hasChunk := false, chunk := { content := [] }, contentRangeHeader := "",
    filename := "", checksum := some (checksumOf [1, 2, 3]) }

/-- The session `sPdf` as the code leaves it after a finalize executed at
time 500 in a process whose model module was imported at time 100: status
COMPLETE, blob renamed to the .pdf final name, but completed_at stamped
with the import time 100. -/
def finPdf : UploadSession :=
  { sPdf with cachedChecksum := some (checksumOf [1, 2, 3]),
              fileName := "chunked_uploads/7.pdf",
              status := COMPLETE, completedAt := some 100 }

/-- C3: a successful finalize does set status COMPLETE, does rename the
blob to the final name bearing the original filename's extension, and
persists — but it stamps completed_at with the module-import timestamp
(the Python default argument `completed_at=timezone.now()` is evaluated
once, at class definition), not with the time at which the finalize
operation runs: here the finalize runs at time 500 yet completed_at
becomes 100. -/
theorem C3_completed_at_stamps_import_time :
    postView cfgDefault [sPdf] 500 100 9 reqFin (some 7) = (.ok finPdf, [finPdf])
    ∧ finPdf.status = COMPLETE
    ∧ finPdf.fileName = "chunked_uploads/7.pdf"
    ∧ finPdf.completedAt = some 100
    ∧ (100 : Int) ≠ 500 := by
  decide

end DRFChunkedUpload
